import Mathlib

/-!
Shallow embedding of the NeighborLoop marketplace backend
(session-2/app.py): a Flask application with handlers for item
listing, feed retrieval, semantic search and swipe matching over a
relational database with a vector extension. External systems
(object store, generative model, database-side embedding and
cosine-distance operators, the ai.if predicate) are modelled as
function parameters; database state is a pair of row lists.
-/

/-- Item status column: the code writes the literals available and matched. -/
inductive Status where
  | available
  | matched
deriving DecidableEq

/-- One row of the items table, with the columns the code reads and writes. -/
structure Item where
  item_id : String
  owner_id : String
  provider_name : String
  provider_phone : String
  title : String
  bio : String
  category : String
  image_url : String
  status : Status
  item_vector : Option (List ℚ)
  created_at : Nat
deriving DecidableEq

/-- One row of the swipes table, as inserted by handle_swipe. -/
structure Swipe where
  swiper_id : String
  item_id : String
  direction : String
  is_match : Bool
deriving DecidableEq

/-- The database state: the two tables the application touches. -/
structure DB where
  items : List Item
  swipes : List Swipe
deriving DecidableEq

/-- Python truthiness of an optional string: None and the empty string are falsy.
The code guards with the test (not item_id) and (not query_text). -/
def truthy : Option String → Bool
  | none => false
  | some s => !(s == "")

/-- The JSON body of a successful swipe response: is_match, the two provider
fields when present, and the freshly generated swiper id. -/
structure SwipeResp where
  is_match : Bool
  provider_name : Option String
  provider_phone : Option String
  swiper_id : String
deriving DecidableEq

/-- Outcome of handle_swipe: 500 when the engine is uninitialized, 400 on
invalid swipe data, otherwise a 200 JSON response. -/
inductive SwipeResult where
  | engineNone
  | badRequest
  | ok (resp : SwipeResp)
deriving DecidableEq

/-- HTTP status code carried by each swipe outcome. -/
def SwipeResult.statusCode : SwipeResult → Nat
  | .engineNone => 500
  | .badRequest => 400
  | .ok _ => 200

/-- Effect of the UPDATE statement: set status to matched on every items row
whose item_id equals the given id, leaving all other rows untouched. -/
def setMatched (item_id : String) (l : List Item) : List Item :=
  l.map (fun i => if i.item_id == item_id then { i with status := Status.matched } else i)

/-- The swipe handler. Validation (missing or falsy item_id, or direction
outside left and right) gives 400 before any database work; otherwise one
Swipe row is inserted, and on a right swipe the provider info of the first
items row with the given id is fetched and the UPDATE to matched is run;
the success response is returned only when the fetch found a row. -/
def handle_swipe (engineOk : Bool) (direction item_id : Option String)
    (swiper_id : String) (db : DB) : SwipeResult × DB :=
  if !engineOk then (.engineNone, db)
  else if !truthy item_id || !(direction == some "left" || direction == some "right") then
    (.badRequest, db)
  else
    let dir := direction.getD ""
    let item := item_id.getD ""
    let is_match := dir == "right"
    let db1 : DB := { db with swipes := db.swipes ++ [⟨swiper_id, item, dir, is_match⟩] }
    if is_match then
      let res := db1.items.find? (fun i => i.item_id == item)
      let db2 : DB := { db1 with items := setMatched item db1.items }
      match res with
      | some it => (.ok ⟨true, some it.provider_name, some it.provider_phone, swiper_id⟩, db2)
      | none => (.ok ⟨false, none, none, swiper_id⟩, db2)
    else
      (.ok ⟨false, none, none, swiper_id⟩, db1)

/-- The empty database, used for concrete witnesses. -/
def dbEmpty : DB := ⟨[], []⟩

/-- The JSON object parsed from the generative model response; the handler
reads the bio and category keys with dict-get defaults. -/
structure Profile where
  bioField : Option String
  categoryField : Option String
  tags : List String
deriving DecidableEq

/-- Outcome of list_item: 500 when the engine is uninitialized, 400 when the
multipart body has no image part, 500 on upload or model failure, otherwise
the success JSON with the new item id, the image url and the full profile. -/
inductive ListResult where
  | engineNone
  | noImage
  | uploadFailed
  | opFailed
  | ok (item_id : String) (image_url : String) (profile : Profile)
deriving DecidableEq

/-- HTTP status code carried by each listing outcome. -/
def ListResult.statusCode : ListResult → Nat
  | .engineNone => 500
  | .noImage => 400
  | .uploadFailed => 500
  | .opFailed => 500
  | .ok _ _ _ => 200

/-- Counts of the external effects a handler performed: object-store uploads,
calls to the generative model from the application, and SQL statements sent. -/
structure Effects where
  uploads : Nat
  aiCalls : Nat
  dbQueries : Nat
deriving DecidableEq

/-- The listing handler. The image check precedes every external call; the
upload, the model call and the INSERT happen in that order, each gated on
the previous one succeeding. The inserted row takes its title from the
user form field, its bio and category from the generated profile, and its
vector from the database-side embedding of title, a space, and bio. -/
def list_item (engineOk : Bool) (image : Option (String × List Nat))
    (provider_name provider_phone item_title : Option String)
    (upload : List Nat → String → Option String)
    (genProfile : List Nat → Option Profile)
    (owner_id fresh_item_id : String) (created_at : Nat)
    (embed : String → List ℚ) (db : DB) : ListResult × DB × Effects :=
  if !engineOk then (.engineNone, db, ⟨0, 0, 0⟩)
  else
    match image with
    | none => (.noImage, db, ⟨0, 0, 0⟩)
    | some (fname, bytes) =>
      let pname := provider_name.getD "Anonymous"
      let pphone := provider_phone.getD "No Phone"
      let ititle := item_title.getD "No Title"
      match upload bytes fname with
      | none => (.uploadFailed, db, ⟨1, 0, 0⟩)
      | some image_url =>
        match genProfile bytes with
        | none => (.opFailed, db, ⟨1, 1, 0⟩)
        | some profile =>
          let bio := profile.bioField.getD "No bio provided."
          let cat := profile.categoryField.getD "Misc"
          let newItem : Item :=
            ⟨fresh_item_id, owner_id, pname, pphone, ititle, bio, cat, image_url,
              Status.available, some (embed (ititle ++ " " ++ bio)), created_at⟩
          (.ok fresh_item_id image_url profile,
            { db with items := db.items ++ [newItem] }, ⟨1, 1, 1⟩)

/-- One search result row as serialized by the handler. -/
structure Hit where
  id : String
  title : String
  bio : String
  category : String
  image_url : String
  score : ℚ
deriving DecidableEq

/-- Outcome of the search handler. -/
inductive SearchResult where
  | engineNone
  | ok (hits : List Hit)
deriving DecidableEq

/-- HTTP status code carried by each search outcome. -/
def SearchResult.statusCode : SearchResult → Nat
  | .engineNone => 500
  | .ok _ => 200

/-- Rounding to 3 decimal places, as the handler applies to the score. -/
def round3 (q : ℚ) : ℚ := ((⌊q * 1000 + 1 / 2⌋ : ℤ) : ℚ) / 1000

/-- The ai.if prompt built in the search SQL from the row bio and the query. -/
def aiPrompt (bio query : String) : String :=
  "Does this text: \"" ++ bio ++ "\" match the user request: \"" ++ query
    ++ "\", at least 60%? \" "

/-- The ORDER BY key: cosine distance between the stored item vector and the
query embedding. -/
def searchKey (cosDist : List ℚ → List ℚ → ℚ) (qv : List ℚ) (i : Item) : ℚ :=
  cosDist (i.item_vector.getD []) qv

/-- Serialization of one row: the five columns plus the rounded similarity
score, which the SQL computes as 1 minus the cosine distance. -/
def mkHit (cosDist : List ℚ → List ℚ → ℚ) (qv : List ℚ) (i : Item) : Hit :=
  ⟨i.item_id, i.title, i.bio, i.category, i.image_url, round3 (1 - searchKey cosDist qv i)⟩

/-- The rows the search SELECT returns: items filtered by status available,
a non-null vector and the ai.if predicate, ordered by ascending cosine
distance to the query embedding, limited to 5. -/
def searchRows (q : String) (embed : String → List ℚ)
    (cosDist : List ℚ → List ℚ → ℚ) (aiIf : String → Bool) (db : DB) : List Item :=
  let qv := embed q
  ((db.items.filter (fun i =>
      i.status == Status.available && i.item_vector.isSome && aiIf (aiPrompt i.bio q))).mergeSort
    (fun a b => decide (searchKey cosDist qv a ≤ searchKey cosDist qv b))).take 5

/-- The search handler: an empty or missing query short-circuits to the empty
JSON list with no external work; otherwise one SQL query ranks and the rows
are serialized with their scores. -/
def search (engineOk : Bool) (query : Option String)
    (embed : String → List ℚ) (cosDist : List ℚ → List ℚ → ℚ)
    (aiIf : String → Bool) (db : DB) : SearchResult × Effects :=
  if !engineOk then (.engineNone, ⟨0, 0, 0⟩)
  else if !truthy query then (.ok [], ⟨0, 0, 0⟩)
  else
    let q := query.getD ""
    (.ok ((searchRows q embed cosDist aiIf db).map (mkHit cosDist (embed q))), ⟨0, 0, 1⟩)

/-- Outcome of process start: either the interpreter dies before serving, or
the Flask app comes up with the given engine state. -/
inductive StartupOutcome where
  | fatal
  | serving (engineOk : Bool)
deriving DecidableEq

/-- Process start: the try block raises ValueError when DATABASE_URL is
unset, but the except clause catches every exception and only prints, so the
module always finishes loading and app.run serves; the engine handle stays
None exactly when the database url is missing or empty. -/
def startup (databaseUrl : Option String) : StartupOutcome :=
  StartupOutcome.serving (truthy databaseUrl)

/-- A concrete available item without a vector, used for swipe witnesses. -/
def itemA : Item :=
  ⟨"a", "o1", "Pat", "555-0101", "Chair", "a chair bio", "Furniture", "url-a",
    Status.available, none, 0⟩

/-- A one-item database for swipe witnesses. -/
def dbA : DB := ⟨[itemA], []⟩

/-- A concrete available item carrying a vector, used for search witnesses. -/
def itemV : Item :=
  ⟨"v", "o2", "Sam", "555-0202", "Lamp", "a lamp bio", "Decor", "url-v",
    Status.available, some [1], 0⟩

/-- A one-item database for search witnesses. -/
def dbV : DB := ⟨[itemV], []⟩

/-- A concrete object-store upload that always succeeds. -/
def uploadW : List Nat → String → Option String := fun _ _ => some "gcs-url"

/-- A concrete generated profile. -/
def profileW : Profile := ⟨some "a witty bio", some "Furniture", ["t1"]⟩

/-- A concrete generative model call that always parses. -/
def genProfileW : List Nat → Option Profile := fun _ => some profileW

/-- A concrete embedding function. -/
def embedW : String → List ℚ := fun s => [(s.length : ℚ)]

/-- A concrete cosine-distance operator. -/
def cosW : List ℚ → List ℚ → ℚ := fun _ _ => 0

/-- A concrete ai.if predicate that accepts every prompt. -/
def aiW : String → Bool := fun _ => true

/-- Helper: every row of setMatched whose id is the target has status matched. -/
theorem setMatched_mem_status {id : String} {l : List Item} :
    ∀ j ∈ setMatched id l, j.item_id = id → j.status = Status.matched := by
  intro j hj hid
  rcases List.mem_map.mp hj with ⟨i, hi, rfl⟩
  by_cases h : i.item_id == id
  · simp [h]
  · simp [h] at hid ⊢
    exact absurd hid (by simpa using h)

/-- Helper: rounding to 3 decimal places is monotone. -/
theorem round3_mono {a b : ℚ} (h : a ≤ b) : round3 a ≤ round3 b := by
  unfold round3
  have hf : (⌊a * 1000 + 1 / 2⌋ : ℤ) ≤ ⌊b * 1000 + 1 / 2⌋ :=
    Int.floor_mono (by linarith)
  have hq : ((⌊a * 1000 + 1 / 2⌋ : ℤ) : ℚ) ≤ ((⌊b * 1000 + 1 / 2⌋ : ℤ) : ℚ) := by
    exact_mod_cast hf
  linarith

/-- Helper: the rows the search SELECT returns are sorted by ascending cosine
distance to the query embedding. -/
theorem searchRows_sorted (q : String) (embed : String → List ℚ)
    (cosDist : List ℚ → List ℚ → ℚ) (aiIf : String → Bool) (db : DB) :
    (searchRows q embed cosDist aiIf db).Pairwise
      (fun a b => searchKey cosDist (embed q) a ≤ searchKey cosDist (embed q) b) := by
  have hs := @List.sorted_mergeSort Item
    (fun a b => decide (searchKey cosDist (embed q) a ≤ searchKey cosDist (embed q) b))
    (fun a b c hab hbc => by
      simp only [decide_eq_true_eq] at *
      exact le_trans hab hbc)
    (fun a b => by
      rcases le_total (searchKey cosDist (embed q) a) (searchKey cosDist (embed q) b) with h | h <;>
        simp [h])
    (db.items.filter (fun i =>
      i.status == Status.available && i.item_vector.isSome && aiIf (aiPrompt i.bio q)))
  have ht := List.Pairwise.sublist (List.take_sublist 5 _) hs
  exact ht.imp (fun h => by simpa using h)

/-- Claim C1: on a right swipe with a valid item_id, if an items row with that
id exists the handler returns its stored provider_name and provider_phone with
the fresh swiper_id and is_match true, and every items row with that id is set
to matched; if no such row exists the handler returns a non-match response
with no provider info and no error. -/
theorem swipe_right_cases (db : DB) (id swiper : String) (hid : id ≠ "") :
    (∀ it, db.items.find? (fun i => i.item_id == id) = some it →
      (handle_swipe true (some "right") (some id) swiper db).1
          = .ok ⟨true, some it.provider_name, some it.provider_phone, swiper⟩
        ∧ ∀ j ∈ (handle_swipe true (some "right") (some id) swiper db).2.items,
            j.item_id = id → j.status = Status.matched)
    ∧ (db.items.find? (fun i => i.item_id == id) = none →
      (handle_swipe true (some "right") (some id) swiper db).1
          = .ok ⟨false, none, none, swiper⟩) := by
  constructor
  · intro it hfind
    simp only [handle_swipe, truthy]
    simp [hid, hfind]
    exact fun j hj => setMatched_mem_status j hj
  · intro hfind
    simp only [handle_swipe, truthy]
    simp [hid, hfind]

/-- Witness for C1 on a concrete database holding one item. -/
theorem swipe_right_cases_witness :
    ("a" : String) ≠ ""
    ∧ (handle_swipe true (some "right") (some "a") "s" dbA).1
        = .ok ⟨true, some "Pat", some "555-0101", "s"⟩ := by
  have h := (swipe_right_cases dbA "a" "s" (by decide)).1 itemA (by decide)
  exact ⟨by decide, h.1⟩

/-- Claim C2: a successful listing submission inserts exactly one new Item row
with status available, title from the user form field, bio and category from
the generated profile, and item_vector the database-side embedding of the
concatenation of title and generated bio; the response carries the new
item_id, the image_url and the full profile. -/
theorem list_item_success (fname : String) (bytes : List Nat)
    (pn pp tt : Option String) (upload : List Nat → String → Option String)
    (genProfile : List Nat → Option Profile) (owner fresh : String) (ts : Nat)
    (embed : String → List ℚ) (db : DB) (url : String) (profile : Profile)
    (hup : upload bytes fname = some url) (hai : genProfile bytes = some profile) :
    list_item true (some (fname, bytes)) pn pp tt upload genProfile owner fresh ts embed db
      = (.ok fresh url profile,
        { db with items := db.items ++
            [⟨fresh, owner, pn.getD "Anonymous", pp.getD "No Phone", tt.getD "No Title",
              profile.bioField.getD "No bio provided.", profile.categoryField.getD "Misc",
              url, Status.available,
              some (embed (tt.getD "No Title" ++ " " ++ profile.bioField.getD "No bio provided.")),
              ts⟩] },
        ⟨1, 1, 1⟩) := by
  simp [list_item, hup, hai]

/-- Witness for C2 on concrete external calls and the empty database. -/
theorem list_item_success_witness :
    uploadW [1] "f.jpg" = some "gcs-url"
    ∧ genProfileW [1] = some profileW
    ∧ list_item true (some ("f.jpg", [1])) none none (some "Chair") uploadW genProfileW
        "o" "i1" 0 embedW dbEmpty
      = (.ok "i1" "gcs-url" profileW,
        ⟨[⟨"i1", "o", "Anonymous", "No Phone", "Chair", "a witty bio", "Furniture",
          "gcs-url", Status.available, some (embedW ("Chair" ++ " " ++ "a witty bio")), 0⟩], []⟩,
        ⟨1, 1, 1⟩) := by
  refine ⟨rfl, rfl, ?_⟩
  have h := list_item_success "f.jpg" [1] none none (some "Chair") uploadW genProfileW
      "o" "i1" 0 embedW dbEmpty "gcs-url" profileW rfl rfl
  simpa [dbEmpty, profileW] using h

/-- Claim C3: with a non-empty query the search handler returns exactly the
serialized SELECT rows; every returned row is an available item of the
database, at most 5 rows are returned, the rows are ordered by ascending
cosine distance to the query embedding, and the serialized scores, each equal
to 1 minus the cosine distance rounded to 3 decimal places, descend. -/
theorem search_ranked (q : String) (embed : String → List ℚ)
    (cosDist : List ℚ → List ℚ → ℚ) (aiIf : String → Bool) (db : DB) (hq : q ≠ "") :
    (search true (some q) embed cosDist aiIf db).1
        = .ok ((searchRows q embed cosDist aiIf db).map (mkHit cosDist (embed q)))
    ∧ (∀ i ∈ searchRows q embed cosDist aiIf db, i ∈ db.items ∧ i.status = Status.available)
    ∧ (searchRows q embed cosDist aiIf db).length ≤ 5
    ∧ (searchRows q embed cosDist aiIf db).Pairwise
        (fun a b => searchKey cosDist (embed q) a ≤ searchKey cosDist (embed q) b)
    ∧ ((searchRows q embed cosDist aiIf db).map (mkHit cosDist (embed q))).Pairwise
        (fun a b => b.score ≤ a.score) := by
  refine ⟨by simp [search, truthy, hq], ?_, ?_, searchRows_sorted q embed cosDist aiIf db, ?_⟩
  · intro i hi
    have h1 : i ∈ (db.items.filter (fun i =>
        i.status == Status.available && i.item_vector.isSome && aiIf (aiPrompt i.bio q))).mergeSort
        (fun a b => decide (searchKey cosDist (embed q) a ≤ searchKey cosDist (embed q) b)) :=
      List.mem_of_mem_take (by simpa [searchRows] using hi)
    have h2 := (List.mergeSort_perm _ _).mem_iff.mp h1
    have h3 := List.mem_filter.mp h2
    refine ⟨h3.1, ?_⟩
    have hb := h3.2
    simp only [Bool.and_eq_true, beq_iff_eq] at hb
    exact hb.1.1
  · simp only [searchRows]
    have hl := List.length_take 5 ((db.items.filter (fun i =>
        i.status == Status.available && i.item_vector.isSome && aiIf (aiPrompt i.bio q))).mergeSort
        (fun a b => decide (searchKey cosDist (embed q) a ≤ searchKey cosDist (embed q) b)))
    omega
  · rw [List.pairwise_map]
    exact (searchRows_sorted q embed cosDist aiIf db).imp
      (fun h => round3_mono (by linarith))

/-- Witness for C3 on a concrete database holding one available item with a
vector; the single row is returned. -/
theorem search_ranked_witness :
    ("lamp" : String) ≠ ""
    ∧ searchRows "lamp" embedW cosW aiW dbV = [itemV]
    ∧ (search true (some "lamp") embedW cosW aiW dbV).1
        = .ok ((searchRows "lamp" embedW cosW aiW dbV).map (mkHit cosW (embedW "lamp"))) := by
  refine ⟨by decide, ?_, (search_ranked "lamp" embedW cosW aiW dbV (by decide)).1⟩
  have hf : dbV.items.filter (fun i =>
      i.status == Status.available && i.item_vector.isSome && aiW (aiPrompt i.bio "lamp"))
      = [itemV] := by decide
  simp [searchRows, hf, List.mergeSort_singleton]

/-- Counterexample to C4 as stated: a request whose item_id is present but
equal to the empty string, with direction right, returns 400 and inserts no
Swipe row, so a present item_id with a valid direction does not always insert
a row. -/
theorem swipe_present_empty_id_cex :
    (handle_swipe true (some "right") (some "") "s" dbEmpty).1 = .badRequest
    ∧ (handle_swipe true (some "right") (some "") "s" dbEmpty).2 = dbEmpty := by
  decide

/-- Claim C4 (amended): a swipe whose item_id is missing or empty, or whose
direction is outside left and right, returns 400 and inserts no Swipe row;
a swipe with a present non-empty item_id and direction in that set inserts
exactly one Swipe row, whose is_match is true iff the direction is right. -/
theorem swipe_validation_insert (db : DB) (direction item_id : Option String) (swiper : String) :
    (¬ (truthy item_id = true ∧ (direction = some "left" ∨ direction = some "right")) →
      (handle_swipe true direction item_id swiper db).1 = .badRequest
      ∧ (handle_swipe true direction item_id swiper db).2 = db)
    ∧ (∀ id d, item_id = some id → id ≠ "" → direction = some d →
        (d = "left" ∨ d = "right") →
        (handle_swipe true direction item_id swiper db).2.swipes
          = db.swipes ++ [⟨swiper, id, d, d == "right"⟩]) := by
  constructor
  · intro h
    have hcond : (!truthy item_id || !(direction == some "left" || direction == some "right")) = true := by
      by_cases ht : truthy item_id = true
      · by_cases hd : direction = some "left" ∨ direction = some "right"
        · exact absurd ⟨ht, hd⟩ h
        · push_neg at hd
          simp [beq_eq_false_iff_ne, hd.1, hd.2]
      · simp [Bool.not_eq_true] at ht
        simp [ht]
    simp only [handle_swipe]
    rw [if_neg (by simp), if_pos hcond]
    exact ⟨rfl, rfl⟩
  · rintro id d rfl hid rfl hd
    rcases hd with rfl | rfl
    · simp [handle_swipe, truthy, hid]
    · simp only [handle_swipe, truthy]
      simp only [Bool.not_true, Bool.false_or]
      rw [if_neg (by simp)]
      rw [if_neg (by simp [hid])]
      simp only [Option.getD_some]
      cases hfind : List.find? (fun i => i.item_id == id)
          ({ db with swipes := db.swipes ++ [⟨swiper, id, "right", ("right" == "right")⟩] : DB}).items <;>
        simp [hfind]

/-- Witness for the amended C4: an invalid direction is rejected, and a valid
right swipe on the empty database inserts exactly one matching row. -/
theorem swipe_validation_insert_witness :
    (handle_swipe true (some "up") (some "a") "s" dbEmpty).1 = .badRequest
    ∧ (handle_swipe true (some "right") (some "a") "s" dbEmpty).2.swipes
        = [⟨"s", "a", "right", true⟩] := by
  constructor
  · exact ((swipe_validation_insert dbEmpty (some "up") (some "a") "s").1 (by decide)).1
  · have h := (swipe_validation_insert dbEmpty (some "right") (some "a") "s").2 "a" "right" rfl
      (by decide) rfl (Or.inr rfl)
    simpa [dbEmpty] using h

/-- Claim C5: a listing submission without an image part returns 400, creates
no database row, performs no object-store upload and makes no model call. -/
theorem list_item_no_image (pn pp tt : Option String)
    (upload : List Nat → String → Option String) (genProfile : List Nat → Option Profile)
    (owner fresh : String) (ts : Nat) (embed : String → List ℚ) (db : DB) :
    list_item true none pn pp tt upload genProfile owner fresh ts embed db
      = (.noImage, db, ⟨0, 0, 0⟩)
    ∧ ListResult.noImage.statusCode = 400 := by
  simp [list_item, ListResult.statusCode]

/-- Counterexample to C6 as stated: with DATABASE_URL absent the process
still comes up serving, with the engine left uninitialized; startup is not
fatal. -/
theorem startup_missing_db_cex :
    startup none ≠ StartupOutcome.fatal
    ∧ startup none = StartupOutcome.serving false := by
  decide

/-- Claim C6 (amended): with DATABASE_URL absent the initialization failure
is caught, the process comes up serving with an uninitialized engine, and
each handler then answers HTTP 500 without touching the database. -/
theorem startup_missing_db_serves (direction item_id : Option String) (swiper : String)
    (db : DB) (query : Option String) (embed : String → List ℚ)
    (cosDist : List ℚ → List ℚ → ℚ) (aiIf : String → Bool)
    (image : Option (String × List Nat)) (pn pp tt : Option String)
    (upload : List Nat → String → Option String) (genProfile : List Nat → Option Profile)
    (owner fresh : String) (ts : Nat) :
    startup none = StartupOutcome.serving false
    ∧ (handle_swipe false direction item_id swiper db).1.statusCode = 500
    ∧ (handle_swipe false direction item_id swiper db).2 = db
    ∧ (search false query embed cosDist aiIf db).1.statusCode = 500
    ∧ (list_item false image pn pp tt upload genProfile owner fresh ts embed db).1.statusCode = 500
    ∧ (list_item false image pn pp tt upload genProfile owner fresh ts embed db).2.1 = db := by
  refine ⟨rfl, ?_, ?_, ?_, ?_, ?_⟩ <;>
    simp [handle_swipe, search, list_item, SwipeResult.statusCode,
      SearchResult.statusCode, ListResult.statusCode]

/-- Claim C7: a search whose query is missing or empty returns the empty JSON
list with HTTP 200 and performs no database or model call. -/
theorem search_empty_query (query : Option String) (embed : String → List ℚ)
    (cosDist : List ℚ → List ℚ → ℚ) (aiIf : String → Bool) (db : DB)
    (hq : truthy query = false) :
    search true query embed cosDist aiIf db = (.ok [], ⟨0, 0, 0⟩)
    ∧ (SearchResult.ok []).statusCode = 200 := by
  simp [search, hq, SearchResult.statusCode]

/-- Witness for C7 with the query parameter absent. -/
theorem search_empty_query_witness :
    truthy none = false
    ∧ search true none embedW cosW aiW dbEmpty = (.ok [], ⟨0, 0, 0⟩) := by
  exact ⟨rfl, (search_empty_query none embedW cosW aiW dbEmpty rfl).1⟩

/-- Claim C8: a left swipe with a valid item_id modifies no Item row and
answers is_match false with the generated swiper_id. -/
theorem swipe_left_frame (db : DB) (id swiper : String) (hid : id ≠ "") :
    (handle_swipe true (some "left") (some id) swiper db).1 = .ok ⟨false, none, none, swiper⟩
    ∧ (handle_swipe true (some "left") (some id) swiper db).2.items = db.items := by
  simp [handle_swipe, truthy, hid]

/-- Witness for C8 on a concrete database holding one item. -/
theorem swipe_left_frame_witness :
    ("a" : String) ≠ ""
    ∧ (handle_swipe true (some "left") (some "a") "s" dbA).1 = .ok ⟨false, none, none, "s"⟩
    ∧ (handle_swipe true (some "left") (some "a") "s" dbA).2.items = dbA.items := by
  have h := swipe_left_frame dbA "a" "s" (by decide)
  exact ⟨by decide, h.1, h.2⟩

/-- Claim C9: two right swipes in sequence on the same existing item both
succeed without error, and afterwards every items row with that id has status
matched, the item itself included. -/
theorem swipe_right_twice (db : DB) (id s1 s2 : String) (hid : id ≠ "")
    (hex : ∃ it ∈ db.items, it.item_id = id) :
    (∃ r1, (handle_swipe true (some "right") (some id) s1 db).1 = .ok r1)
    ∧ (∃ r2, (handle_swipe true (some "right") (some id) s2
        (handle_swipe true (some "right") (some id) s1 db).2).1 = .ok r2)
    ∧ (∃ j ∈ (handle_swipe true (some "right") (some id) s2
        (handle_swipe true (some "right") (some id) s1 db).2).2.items,
        j.item_id = id ∧ j.status = Status.matched)
    ∧ (∀ j ∈ (handle_swipe true (some "right") (some id) s2
        (handle_swipe true (some "right") (some id) s1 db).2).2.items,
        j.item_id = id → j.status = Status.matched) := by
  have key : ∀ (d : DB) (s : String),
      (∃ r, (handle_swipe true (some "right") (some id) s d).1 = .ok r)
      ∧ (handle_swipe true (some "right") (some id) s d).2.items = setMatched id d.items := by
    intro d s
    simp only [handle_swipe, truthy]
    simp only [Bool.not_true, Bool.false_or]
    rw [if_neg (by simp)]
    rw [if_neg (by simp [hid])]
    simp only [Option.getD_some]
    cases hfind : List.find? (fun i => i.item_id == id)
        ({ d with swipes := d.swipes ++ [⟨s, id, "right", ("right" == "right")⟩] : DB}).items <;>
      simp [hfind]
  have k1 := key db s1
  have k2 := key (handle_swipe true (some "right") (some id) s1 db).2 s2
  refine ⟨k1.1, k2.1, ?_, ?_⟩
  · rw [k2.2, k1.2]
    obtain ⟨it, hit, hitid⟩ := hex
    have h1 : { it with status := Status.matched } ∈ setMatched id db.items := by
      unfold setMatched
      exact List.mem_map.mpr ⟨it, hit, by simp [hitid]⟩
    refine ⟨{ it with status := Status.matched }, ?_, hitid, rfl⟩
    unfold setMatched
    exact List.mem_map.mpr ⟨{ it with status := Status.matched }, h1, by simp [hitid]⟩
  · rw [k2.2]
    exact fun j hj => setMatched_mem_status j hj

/-- Witness for C9 on a concrete database holding one item. -/
theorem swipe_right_twice_witness :
    (∃ r1, (handle_swipe true (some "right") (some "a") "s1" dbA).1 = .ok r1)
    ∧ (∀ j ∈ (handle_swipe true (some "right") (some "a") "s2"
        (handle_swipe true (some "right") (some "a") "s1" dbA).2).2.items,
        j.item_id = "a" → j.status = Status.matched) := by
  have h := swipe_right_twice dbA "a" "s1" "s2" (by decide) ⟨itemA, by simp [dbA], rfl⟩
  exact ⟨h.1, h.2.2.2⟩

/-- Claim C10: a right swipe with a non-empty item_id matching no items row
still inserts one Swipe row with is_match true, while the HTTP response for
the same request reports is_match false. -/
theorem swipe_right_missing_item (db : DB) (id swiper : String) (hid : id ≠ "")
    (habs : ∀ it ∈ db.items, it.item_id ≠ id) :
    (handle_swipe true (some "right") (some id) swiper db).2.swipes
      = db.swipes ++ [⟨swiper, id, "right", true⟩]
    ∧ (handle_swipe true (some "right") (some id) swiper db).1 = .ok ⟨false, none, none, swiper⟩ := by
  have hfind : db.items.find? (fun i => i.item_id == id) = none := by
    rw [List.find?_eq_none]
    intro x hx
    simpa using habs x hx
  simp [handle_swipe, truthy, hid, hfind]

/-- Witness for C10: a right swipe on an id absent from the one-item
database records a matching Swipe row yet answers is_match false. -/
theorem swipe_right_missing_item_witness :
    ("zzz" : String) ≠ ""
    ∧ (handle_swipe true (some "right") (some "zzz") "s" dbA).2.swipes
        = [⟨"s", "zzz", "right", true⟩]
    ∧ (handle_swipe true (some "right") (some "zzz") "s" dbA).1 = .ok ⟨false, none, none, "s"⟩ := by
  have h := swipe_right_missing_item dbA "zzz" "s" (by decide) (by decide)
  exact ⟨by decide, by simpa [dbA] using h.1, h.2⟩
